import Mathlib

/-!
Verification development for the SEO maturity grader backend
(4Sight-platform/4SightBackend).

Shallow embedding conventions:
* Python `float` values that feed the deterministic scoring pipeline are
  modelled as `ℚ` (the code routes rounding through exact decimal
  arithmetic, so rationals are the faithful abstraction).
* Python `int` is `ℤ` (or `ℕ` where the source only ever holds
  non-negative counts).
* `Optional[T]` is `Option T`; Python truthiness of an optional string
  (`None` and `""` are falsy) is `strTruthy`.
* Each definition is translated from the named source function.
-/

namespace FourSight

/-- From `src/utils/rounding.py`, `round_half_up(value, decimals=0)`:
`Decimal.quantize(Decimal("1"), rounding=ROUND_HALF_UP)`, i.e. round to the
nearest integer with ties going away from zero. -/
def roundHalfUp (q : ℚ) : ℤ :=
  if 0 ≤ q then ⌊q + 1/2⌋ else -⌊-q + 1/2⌋

/-- From `src/utils/rounding.py`, `compute_dimension_score(answers, weight,
max_per_answer=5)`: empty answers give 0, otherwise
`min(round_half_up(sum/(max_per_answer*len) * weight), weight)`. -/
def computeDimensionScore (answers : List ℕ) (weight : ℕ) (maxPerAnswer : ℕ) : ℤ :=
  if answers = [] then 0
  else
    let rawSum : ℕ := answers.sum
    let maxPossible : ℕ := maxPerAnswer * answers.length
    if maxPossible = 0 then 0
    else
      let rawPercent : ℚ := (rawSum : ℚ) / (maxPossible : ℚ)
      min (roundHalfUp (rawPercent * (weight : ℚ))) (weight : ℤ)

/-- From `src/utils/rounding.py`, `compute_observed_bucket_score(subscore,
weight)`: clamp the subscore to [0,1], round-half-up the weighted value,
then cap at the weight. -/
def computeObservedBucketScore (subscore : ℚ) (weight : ℕ) : ℤ :=
  let clamped : ℚ := max 0 (min 1 subscore)
  min (roundHalfUp (clamped * (weight : ℚ))) (weight : ℤ)

/-- From `src/utils/rounding.py`, `compute_stage(total_score)`. -/
def computeStage (totalScore : ℤ) : String :=
  if totalScore ≤ 30 then "Chaotic"
  else if totalScore ≤ 50 then "Reactive"
  else if totalScore ≤ 70 then "Structured"
  else if totalScore ≤ 85 then "Optimised"
  else "Strategic"

/-- From `src/utils/rounding.py`, `compute_gap_description(questionnaire_score,
observed_score)`: returns the f-string `f"{severity} — {explanation}"`. -/
def computeGapDescription (questionnaireScore observedScore : ℤ) : String :=
  let diff := questionnaireScore - observedScore
  let absDiff := |diff|
  if absDiff ≤ 3 then
    "Minimal" ++ " — " ++ "declared and observed capabilities are well-aligned"
  else if absDiff ≤ 10 then
    if 0 < diff then
      "Moderate" ++ " — " ++ "declared capability somewhat exceeds observable execution"
    else
      "Moderate" ++ " — " ++ "observable execution somewhat stronger than declared capability"
  else
    if 0 < diff then
      "High" ++ " — " ++ "declared capability significantly exceeds observable execution"
    else
      "High" ++ " — " ++ "observable execution significantly stronger than declared capability"

/-- From `src/evaluators/scoring.py`, `compute_final_score(declared, observed)`:
`max(0, min(100, declared.total + observed.total))`, here taken on the two
totals directly. -/
def computeFinalScore (declaredTotal observedTotal : ℤ) : ℤ :=
  max 0 (min 100 (declaredTotal + observedTotal))

/-- From `src/models/schemas.py`: the ten questionnaire answers
(T1-T4, C1-C4, M1-M2), each validated upstream to [1,5]. -/
structure QuestionnaireAnswers where
  T1 : ℕ
  T2 : ℕ
  T3 : ℕ
  T4 : ℕ
  C1 : ℕ
  C2 : ℕ
  C3 : ℕ
  C4 : ℕ
  M1 : ℕ
  M2 : ℕ
deriving DecidableEq

/-- From `src/evaluators/declared_evaluator.py`, `DeclaredScoreResult`. -/
structure DeclaredScoreResult where
  technical : ℤ
  content_keywords : ℤ
  measurement : ℤ
  total : ℤ
deriving DecidableEq

/-- From `src/evaluators/declared_evaluator.py`, `DeclaredEvaluator.evaluate`:
partitions the answers into T1-T4 (weight `DECLARED_WEIGHTS["technical"] = 20`),
C1-C4 (weight 20) and M1-M2 (weight 10), scores each group with
`compute_dimension_score` (max_per_answer defaulting to 5), total is the sum. -/
def declaredEvaluate (a : QuestionnaireAnswers) : DeclaredScoreResult :=
  let technicalScore := computeDimensionScore [a.T1, a.T2, a.T3, a.T4] 20 5
  let contentScore := computeDimensionScore [a.C1, a.C2, a.C3, a.C4] 20 5
  let measurementScore := computeDimensionScore [a.M1, a.M2] 10 5
  ⟨technicalScore, contentScore, measurementScore,
    technicalScore + contentScore + measurementScore⟩

/-- Python truthiness of an `Optional[str]`: `None` and the empty string are
falsy, any other string is truthy. -/
def strTruthy : Option String → Bool
  | none => false
  | some s => !(s == "")

/-- From `src/adapters/serp_adapter.py`, dataclass `SERPResult`: one keyword's
lookup outcome. -/
structure SERPResult where
  keyword : String
  rank : Option ℕ
  is_top10 : Bool
  is_top30 : Bool
  error : Option String
deriving DecidableEq

/-- From `src/adapters/serp_adapter.py`, dataclass `SERPSummary`. -/
structure SERPSummary where
  results : List SERPResult
  hits_top10 : ℕ
  hits_top30 : ℕ
  is_approximate : Bool
deriving DecidableEq

/-- From `src/adapters/serp_adapter.py`, `SERPAdapter._fallback_results`:
every keyword is reported as not found, with an explanatory error. -/
def fallbackResults (keywords : List String) : List SERPResult :=
  keywords.map fun keyword =>
    ⟨keyword, none, false, false, some "No SERP API configured"⟩

/-- From `src/adapters/serp_adapter.py`, `SERPAdapter.check_keywords` taken on
the `backend == "fallback"` branch: empty keywords short-circuit to an empty
summary; otherwise the fallback results are aggregated, with
`is_approximate = (backend == "fallback") = True`. -/
def checkKeywordsFallback (keywords : List String) : SERPSummary :=
  if keywords = [] then ⟨[], 0, 0, false⟩
  else
    let results := fallbackResults keywords
    ⟨results,
      results.countP (fun r => r.is_top10),
      results.countP (fun r => r.is_top30),
      true⟩

/-- From `src/adapters/serp_adapter.py`, `compute_serp_subscore(summary,
num_keywords)`: 1.0 point per top-10 hit, 0.5 per top-30-but-not-top-10 hit,
normalized by the keyword count and clipped to [0,1]; 0.0 for zero keywords. -/
def computeSerpSubscore (summary : SERPSummary) (numKeywords : ℕ) : ℚ :=
  if numKeywords = 0 then 0
  else
    let totalPoints : ℚ := summary.results.foldl
      (fun acc r => if r.is_top10 then acc + 1 else if r.is_top30 then acc + 1/2 else acc) 0
    let subscore := totalPoints / (numKeywords : ℚ)
    max 0 (min 1 subscore)

/-- From `src/utils/rate_limiter.py`, the `RateLimiter` constructor arguments
(defaults: requests_per_second 1.0 so min_interval 1.0, max_retries 3,
base_backoff 1.0, max_backoff 30.0). -/
structure RateLimiterConfig where
  min_interval : ℚ
  maxRetries : ℕ
  base_backoff : ℚ
  max_backoff : ℚ
deriving DecidableEq

/-- The `RateLimiter.__init__` defaults from `src/utils/rate_limiter.py`. -/
def defaultRateLimiterConfig : RateLimiterConfig := ⟨1, 3, 1, 30⟩

/-- From `src/utils/rate_limiter.py`, dataclass `RateLimitState`. -/
structure RateLimitState where
  last_request_time : ℚ
  consecutive_failures : ℕ
  backoff_until : ℚ
deriving DecidableEq

/-- From `src/utils/rate_limiter.py`, `RateLimiter.report_failure(origin)`,
with `time.time()` passed in explicitly as `now`: increments the failure
counter, then either returns False (leaving `backoff_until` untouched) when
the count exceeds `max_retries`, or sets
`backoff_until = now + min(base_backoff * 2^(failures-1), max_backoff)` and
returns True. -/
def reportFailure (cfg : RateLimiterConfig) (now : ℚ) (st : RateLimitState) :
    RateLimitState × Bool :=
  let failures := st.consecutive_failures + 1
  if cfg.maxRetries < failures then
    ({ st with consecutive_failures := failures }, false)
  else
    let backoff := min (cfg.base_backoff * 2 ^ (failures - 1)) cfg.max_backoff
    ({ st with
        consecutive_failures := failures,
        backoff_until := now + backoff }, true)

/-- From `src/utils/rate_limiter.py`, `RateLimiter.report_success(origin)`:
resets the failure counter and backoff window to zero. -/
def reportSuccess (st : RateLimitState) : RateLimitState :=
  { st with consecutive_failures := 0, backoff_until := 0 }

/-- From `src/evaluators/observed_evaluator.py`, dataclass `OnPageMetrics`
(field defaults as in the source; `h1_relevance_score` defaults to 0.67). -/
structure OnPageMetrics where
  title_present : Bool
  title_length : ℕ
  title_quality_score : ℚ
  meta_present : Bool
  meta_unique : Bool
  meta_quality_score : ℚ
  h1_present : Bool
  h1_relevance_score : ℚ
  canonical_present : Bool
  bot_blocked : Bool
  error : Option String
deriving DecidableEq

/-- The `OnPageMetrics()` dataclass defaults from
`src/evaluators/observed_evaluator.py`. -/
def defaultOnPageMetrics : OnPageMetrics :=
  ⟨false, 0, 0, false, false, 0, false, 67/100, false, false, none⟩

/-- From `src/evaluators/observed_evaluator.py`,
`ObservedEvaluator._analyze_onpage` on the `response.status_code == 403`
branch: bot blocking yields `bot_blocked=True`, the three 0.5 default quality
scores, and `error="Site restricts automated access"`. -/
def analyzeOnpage403 : OnPageMetrics :=
  { defaultOnPageMetrics with
      bot_blocked := true,
      title_quality_score := 1/2,
      meta_quality_score := 1/2,
      h1_relevance_score := 1/2,
      error := some "Site restricts automated access" }

/-- From `src/evaluators/observed_evaluator.py`,
`ObservedEvaluator._compute_onpage_subscore`: any truthy `error` short-circuits
to 0.0, otherwise the average of the three quality scores. -/
def computeOnpageSubscore (metrics : OnPageMetrics) : ℚ :=
  if strTruthy metrics.error then 0
  else
    (metrics.title_quality_score + metrics.meta_quality_score +
      metrics.h1_relevance_score) / 3

/-- From `src/adapters/pagespeed_adapter.py`, `PageSpeedAdapter.__init__`:
`is_configured = bool(settings.pagespeed_api_key)`. -/
def pagespeedIsConfigured (pagespeedApiKey : Option String) : Bool :=
  strTruthy pagespeedApiKey

/-- From `src/adapters/serp_adapter.py`, `SERPAdapter.__init__`: backend is
"serpapi" if `SERPAPI_KEY` is set, else "gcs" if both `GCS_API_KEY` and
`GCS_CX` are set, else "fallback". -/
def serpBackendOf (serpapiKey gcsApiKey gcsCx : Option String) : String :=
  if strTruthy serpapiKey then "serpapi"
  else if strTruthy gcsApiKey && strTruthy gcsCx then "gcs"
  else "fallback"

/-- From `src/adapters/whois_adapter.py`, `WhoisAdapter.__init__`:
`is_configured = bool(settings.whoisxml_api_key)`. -/
def whoisIsConfigured (whoisxmlApiKey : Option String) : Bool :=
  strTruthy whoisxmlApiKey

/-- From `src/adapters/authority_adapter.py`, `AuthorityAdapter.__init__`:
backend is "moz" (both Moz credentials), else "ahrefs", else "majestic",
else "fallback". -/
def authorityBackendOf (mozAccessId mozSecretKey ahrefsKey majesticKey : Option String) :
    String :=
  if strTruthy mozAccessId && strTruthy mozSecretKey then "moz"
  else if strTruthy ahrefsKey then "ahrefs"
  else if strTruthy majesticKey then "majestic"
  else "fallback"

/-- From `src/adapters/pagespeed_adapter.py`, dataclass `CoreWebVitals`. -/
structure CoreWebVitals where
  lcp_ms : Option ℤ
  cls : Option ℚ
  inp_ms : Option ℤ
  is_approximate : Bool
  error : Option String
deriving DecidableEq

/-- Outcome of the plain HTTP fetch performed inside
`PageSpeedAdapter._fallback_heuristics`: either the page responded (with a
measured total latency and content length), or the fetch timed out, or some
other exception was raised. -/
inductive FetchOutcome where
  | ok (totalMs : ℤ) (contentLength : ℕ)
  | timeout
  | exc (msg : String)
deriving DecidableEq

/-- From `src/adapters/pagespeed_adapter.py`,
`PageSpeedAdapter._fallback_heuristics(url)`: estimate LCP as 1.5x the
response time, CLS from the content length, INP as the capped response time;
every path tags the result `is_approximate=True` with an explanatory error. -/
def fallbackHeuristics (outcome : FetchOutcome) : CoreWebVitals :=
  match outcome with
  | .ok totalMs contentLength =>
    let lcpEstimate : ℤ := (totalMs * 3) / 2
    let clsEstimate : ℚ :=
      if 500000 < contentLength then 15/100
      else if 200000 < contentLength then 8/100
      else 5/100
    let inpEstimate : ℤ := min totalMs 500
    ⟨some lcpEstimate, some clsEstimate, some inpEstimate, true,
      some "Estimated from response timing (PageSpeed API not available)"⟩
  | .timeout => ⟨none, none, none, true, some "Site unreachable or timeout"⟩
  | .exc msg => ⟨none, none, none, true, some ("Could not analyze site: " ++ msg)⟩

/-- From `src/adapters/whois_adapter.py`, dataclass `DomainInfo` (the creation
date is abstracted to the derived `age_years`). -/
structure DomainInfo where
  domain : String
  age_years : Option ℤ
  registrar : Option String
  error : Option String
  is_approximate : Bool
deriving DecidableEq

/-- Outcome of the python-whois library call inside
`WhoisAdapter._fallback_whois`: either a record (whose creation date, if any,
is abstracted to the derived age in years, with optional registrar), or an
exception. -/
inductive WhoisOutcome where
  | ok (ageYears : Option ℤ) (registrar : Option String)
  | exc (msg : String)
deriving DecidableEq

/-- From `src/adapters/whois_adapter.py`, `WhoisAdapter._fallback_whois`:
both the success and the exception path are tagged `is_approximate=True`. -/
def fallbackWhois (domain : String) (outcome : WhoisOutcome) : DomainInfo :=
  match outcome with
  | .ok ageYears registrar => ⟨domain, ageYears, registrar, none, true⟩
  | .exc msg => ⟨domain, none, none, some ("WHOIS lookup failed: " ++ msg), true⟩

/-- From `src/adapters/authority_adapter.py`, dataclass `AuthorityMetrics`.
Note: unlike `CoreWebVitals`, `DomainInfo` and `SERPSummary`, this dataclass
has no `is_approximate` field; its only fallback marker is the `source` tag. -/
structure AuthorityMetrics where
  domain : String
  domain_authority : Option ℚ
  referring_domains : Option ℤ
  source : String
  error : Option String
deriving DecidableEq

/-- From `src/adapters/authority_adapter.py`,
`AuthorityAdapter._fallback_estimation(domain, domain_age_years,
has_brand_presence)`: a deterministic DA estimate from domain age, the
age-derived referring-domain guess, and brand presence, capped at 100;
returned with `source="fallback"` and no error. -/
def fallbackEstimation (domain : String) (domainAgeYears : Option ℤ)
    (hasBrandPresence : Bool) : AuthorityMetrics :=
  let ageDa : ℚ :=
    match domainAgeYears with
    | some age =>
      if 5 ≤ age then 40 else if 3 ≤ age then 30 else if 1 ≤ age then 20 else 10
    | none => 0
  let estimatedRefs : Option ℤ :=
    match domainAgeYears with
    | some age => if 2 ≤ age then some (age * 5) else none
    | none => none
  let refsDa : ℚ :=
    match estimatedRefs with
    | some refs => if 5 < refs then 40 else 0
    | none => 0
  let brandDa : ℚ := if hasBrandPresence then 20 else 0
  let estimatedDa : ℚ := min (ageDa + refsDa + brandDa) 100
  ⟨domain, some estimatedDa, estimatedRefs, "fallback", none⟩

/-- The flaggedness predicate asserted by the specification for a fallback
`AuthorityMetrics` record: "carries an approximation flag (`is_approximate`)
or a non-empty explanatory error/note". `AuthorityMetrics` has no
`is_approximate` field, so on this dataclass the predicate reduces to a
truthy `error`. -/
def specFlaggedAuthority (m : AuthorityMetrics) : Prop :=
  strTruthy m.error = true

/-- The four observed scoring buckets (`OBSERVED_WEIGHTS` in
`src/models/enums.py`): Core Web Vitals (20), on-page (15), authority (10),
SERP reality (5). -/
inductive RiskCat where
  | cwv
  | onpage
  | authority
  | serp
deriving DecidableEq

/-- The distinct risk statements `identify_top_risks` in
`src/evaluators/scoring.py` can emit. Each constructor stands for one literal
message template of the source. Every template interpolates the domain
(extracted from `website_url`) plus numeric values ("3000ms",
"2 years", "unmeasurable", "unknown age", scores); the backfill loop's
substring probes on the rendered messages are recovered from the constructor
together with the `domainHasOnPage` bit of `RiskInput` (see
`renderedContainsOnPage`):
* `cwvCritical` — "CRITICAL PERFORMANCE COLLAPSE: ... Core Web Vitals ..."
* `cwvDecay` — "TECHNICAL DECAY: ... Core Web Vitals at .../20 ..."
* `cwvUnstable` — "UNSTABLE PERFORMANCE: ... on Core Web Vitals. ..."
* `onpageCatastrophe` — "STRUCTURAL CATASTROPHE: ... critical SEO signals ..."
* `onpageMisalign` — "SIGNAL MISALIGNMENT: ... on-page SEO at .../15. ..."
* `authorityVoid` — "AUTHORITY VOID: ... minimal trust signals. ..."
* `authorityDeficit` — "AUTHORITY DEFICIT: ... trust signals at .../10 ..."
* `serpObsolescence` — "ORGANIC OBSOLESCENCE: ... critical visibility gap."
* `serpFragmented` — "FRAGMENTED VISIBILITY: ... Inconsistent positioning ..."
* `gapHallucination` — "CAPABILITY HALLUCINATION: ... disconnect ..."
* `gapUnderutilized` — "UNDERUTILIZED ENGINE: ... untapped potential."
* `backfillMonitoring` — "MONITORING ADVISED: ... Core Web Vitals are
  acceptable but should be continuously monitored ..."
* `backfillOptimization` — "OPTIMIZATION OPPORTUNITY: ... on-page elements
  are functional ..."
* `backfillContinuous` — "CONTINUOUS IMPROVEMENT: ... regular SEO audits ..."
-/
inductive RiskMsg where
  | cwvCritical
  | cwvDecay
  | cwvUnstable
  | onpageCatastrophe
  | onpageMisalign
  | authorityVoid
  | authorityDeficit
  | serpObsolescence
  | serpFragmented
  | gapHallucination
  | gapUnderutilized
  | backfillMonitoring
  | backfillOptimization
  | backfillContinuous
deriving DecidableEq

/-- Whether the rendered message contains the substring "Web Vitals" — the
membership test `"Web Vitals" in r` used by the backfill loop of
`identify_top_risks`. True exactly for the three Core-Web-Vitals risk
messages and the monitoring backfill message. This needs no input bit for
the interpolated values: "Web Vitals" contains a space, which can occur in
no hostname and in none of the numeric interpolations, and every
interpolation site is delimited by spaces or punctuation in the templates,
so no occurrence can straddle an interpolation boundary either. -/
def containsWebVitals : RiskMsg → Bool
  | .cwvCritical => true
  | .cwvDecay => true
  | .cwvUnstable => true
  | .backfillMonitoring => true
  | _ => false

/-- Whether the lower-cased literal message TEMPLATE contains the substring
"on-page": true exactly for the SIGNAL MISALIGNMENT message ("on-page SEO
at") and the optimization backfill message ("on-page elements"); the
STRUCTURAL CATASTROPHE message does not contain it. This is only the
template-text part of the code's test `"on-page" in r.lower()`: the rendered
message also interpolates the domain, which may itself contain "on-page"
(e.g. host `on-page.com`) — that part is the `domainHasOnPage` bit, combined
in `renderedContainsOnPage`. -/
def containsOnPage : RiskMsg → Bool
  | .onpageMisalign => true
  | .backfillOptimization => true
  | _ => false

/-- The observed scoring bucket a risk message is about, if any: the three
CWV messages and the CWV monitoring backfill belong to the CWV bucket, the
two on-page messages and the on-page optimization backfill to the on-page
bucket, and so on; the two capability-gap messages and the generic
continuous-improvement backfill are not tied to a bucket. -/
def bucketCat : RiskMsg → Option RiskCat
  | .cwvCritical => some .cwv
  | .cwvDecay => some .cwv
  | .cwvUnstable => some .cwv
  | .backfillMonitoring => some .cwv
  | .onpageCatastrophe => some .onpage
  | .onpageMisalign => some .onpage
  | .backfillOptimization => some .onpage
  | .authorityVoid => some .authority
  | .authorityDeficit => some .authority
  | .serpObsolescence => some .serp
  | .serpFragmented => some .serp
  | .gapHallucination => none
  | .gapUnderutilized => none
  | .backfillContinuous => none

/-- The inputs of `identify_top_risks` in `src/evaluators/scoring.py` that
drive its branching: the four observed bucket scores, the two totals
(`declared.total` and `observed.total`), and the one bit of `website_url`
the control flow depends on. The function extracts
`domain = urlparse(website_url).netloc.replace("www.", "")` and interpolates
it into every message; its only effect on branching is through the backfill
test `"on-page" in r.lower()`, which a domain such as `on-page.com`
satisfies by itself. `domainHasOnPage` records whether the lower-cased
domain contains "on-page" (the "Web Vitals" test cannot be affected by the
domain, see `containsWebVitals`; since "on-page" contains no space and every
interpolation site is space/punctuation-delimited, no occurrence straddles
an interpolation boundary, so this single bit captures the domain's whole
effect). -/
structure RiskInput where
  cwvScore : ℤ
  onpageScore : ℤ
  authorityScore : ℤ
  serpScore : ℤ
  declaredTotal : ℤ
  observedTotal : ℤ
  domainHasOnPage : Bool
deriving DecidableEq

/-- `cwv_ratio = observed.core_web_vitals / 20.0`. -/
def RiskInput.cwvRatio (i : RiskInput) : ℚ := (i.cwvScore : ℚ) / 20

/-- `onpage_ratio = observed.onpage / 15.0`. -/
def RiskInput.onpageRatio (i : RiskInput) : ℚ := (i.onpageScore : ℚ) / 15

/-- `authority_ratio = observed.authority_proxies / 10.0`. -/
def RiskInput.authorityRatio (i : RiskInput) : ℚ := (i.authorityScore : ℚ) / 10

/-- `serp_ratio = observed.serp_reality / 5.0`. -/
def RiskInput.serpRatio (i : RiskInput) : ℚ := (i.serpScore : ℚ) / 5

/-- The CWV candidate risk of `identify_top_risks`: appended with its ratio
when `cwv_ratio` is below 0.4, 0.6 or 0.8. -/
def cwvCandidate (i : RiskInput) : Option (ℚ × RiskMsg) :=
  if i.cwvRatio < 2/5 then some (i.cwvRatio, .cwvCritical)
  else if i.cwvRatio < 3/5 then some (i.cwvRatio, .cwvDecay)
  else if i.cwvRatio < 4/5 then some (i.cwvRatio, .cwvUnstable)
  else none

/-- The on-page candidate risk: thresholds 0.5 and 0.75. -/
def onpageCandidate (i : RiskInput) : Option (ℚ × RiskMsg) :=
  if i.onpageRatio < 1/2 then some (i.onpageRatio, .onpageCatastrophe)
  else if i.onpageRatio < 3/4 then some (i.onpageRatio, .onpageMisalign)
  else none

/-- The authority candidate risk: thresholds 0.5 and 0.75. -/
def authorityCandidate (i : RiskInput) : Option (ℚ × RiskMsg) :=
  if i.authorityRatio < 1/2 then some (i.authorityRatio, .authorityVoid)
  else if i.authorityRatio < 3/4 then some (i.authorityRatio, .authorityDeficit)
  else none

/-- The SERP candidate risk: thresholds 0.5 and 0.75. -/
def serpCandidate (i : RiskInput) : Option (ℚ × RiskMsg) :=
  if i.serpRatio < 1/2 then some (i.serpRatio, .serpObsolescence)
  else if i.serpRatio < 3/4 then some (i.serpRatio, .serpFragmented)
  else none

/-- The declared-vs-observed capability-mismatch candidate risk: generated
with ratio 0.0 when `gap = declared.total - observed.total` exceeds 10 in
either direction. -/
def gapCandidate (i : RiskInput) : Option (ℚ × RiskMsg) :=
  let gap := i.declaredTotal - i.observedTotal
  if 10 < gap then some (0, .gapHallucination)
  else if gap < -10 then some (0, .gapUnderutilized)
  else none

/-- `risk_candidates` as built by `identify_top_risks`, in source order:
CWV, on-page, authority, SERP, then the gap check. -/
def riskCandidates (i : RiskInput) : List (ℚ × RiskMsg) :=
  (cwvCandidate i).toList ++ (onpageCandidate i).toList ++
    (authorityCandidate i).toList ++ (serpCandidate i).toList ++
    (gapCandidate i).toList

/-- `risk_candidates.sort(key=lambda x: x[0])`: a stable ascending sort on
the fill ratio, modelled by insertion sort (which, like Python's sort, keeps
the original order of equal keys). -/
def sortedCandidates (i : RiskInput) : List (ℚ × RiskMsg) :=
  List.insertionSort (fun x y => x.1 ≤ y.1) (riskCandidates i)

/-- The code's test `"on-page" in r.lower()` on a RENDERED risk message:
the template contains "on-page", or the interpolated domain does (every
message interpolates the domain, so the bit applies uniformly). -/
def renderedContainsOnPage (i : RiskInput) (m : RiskMsg) : Bool :=
  containsOnPage m || i.domainHasOnPage

/-- The backfill `while len(risks) < 3` loop at the end of
`identify_top_risks`. Each iteration appends exactly one message, so the
Python loop runs at most three times; fuel 3 therefore reproduces it
exactly. The first guard re-checks `cwv_ratio >= 0.8` and that no rendered
message contains "Web Vitals"; the second re-checks `onpage_ratio >= 0.75`
and that no rendered message contains "on-page" (which the interpolated
domain can contribute on its own); the final branch appends the generic
message and breaks. -/
def backfillLoop (i : RiskInput) : ℕ → List RiskMsg → List RiskMsg
  | 0, risks => risks
  | fuel + 1, risks =>
    if risks.length < 3 then
      if 4/5 ≤ i.cwvRatio ∧ risks.countP containsWebVitals = 0 then
        backfillLoop i fuel (risks ++ [.backfillMonitoring])
      else if 3/4 ≤ i.onpageRatio ∧ risks.countP (renderedContainsOnPage i) = 0 then
        backfillLoop i fuel (risks ++ [.backfillOptimization])
      else risks ++ [.backfillContinuous]
    else risks

/-- From `src/evaluators/scoring.py`, `identify_top_risks`: sort the
candidates ascending by fill ratio, keep the first three messages, run the
backfill loop, and return `risks[:3]`. -/
def identifyTopRisks (i : RiskInput) : List RiskMsg :=
  (backfillLoop i 3 (((sortedCandidates i).map Prod.snd).take 3)).take 3

/-- A concrete `identify_top_risks` input: bucket scores 16/20, 12/15, 8/10
and 4/5 (every fill ratio at or above all risk thresholds, so no candidate
risks), totals 32 and 33 (|gap| = 1, no mismatch risk), for a site whose
domain contains "on-page" — e.g. `website_url = "https://on-page.com"`,
whose extracted domain `on-page.com` is interpolated into every rendered
message. -/
def onpageDomainInput : RiskInput := ⟨16, 12, 8, 4, 32, 33, true⟩

/-- C1: under HTTP 403 the on-page analysis produces a bot-blocked record
with the neutral 0.5 quality scores, but the subscore computed from that
record is 0.0, not the 0.5 the specification states: the record's `error`
field is set, and `_compute_onpage_subscore` zeroes every record with a
truthy error before averaging the quality scores. -/
theorem onpage403_subscore_is_zero_not_half :
    analyzeOnpage403.bot_blocked = true ∧
    analyzeOnpage403.title_quality_score = 1/2 ∧
    analyzeOnpage403.meta_quality_score = 1/2 ∧
    analyzeOnpage403.h1_relevance_score = 1/2 ∧
    computeOnpageSubscore analyzeOnpage403 = 0 ∧
    ¬ computeOnpageSubscore analyzeOnpage403 = 1/2 := by
  refine ⟨rfl, rfl, rfl, rfl, ?_, ?_⟩ <;>
    norm_num [computeOnpageSubscore, analyzeOnpage403, defaultOnPageMetrics, strTruthy] <;>
    decide

/-- C5: `round_half_up` with `decimals=0` rounds half away from zero:
`2.5 ↦ 3`, `-2.5 ↦ -3`, `2.4 ↦ 2`, and every input whose fractional part is
exactly one half is rounded to a value of strictly larger magnitude. -/
theorem roundHalfUp_half_away_from_zero :
    roundHalfUp (5/2) = 3 ∧ roundHalfUp (-5/2) = -3 ∧ roundHalfUp (12/5) = 2 ∧
    ∀ q : ℚ, (∃ n : ℤ, |q| = (n : ℚ) + 1/2) → |q| < |(roundHalfUp q : ℚ)| := by
  refine ⟨by norm_num [roundHalfUp], by norm_num [roundHalfUp],
    by norm_num [roundHalfUp], ?_⟩
  rintro q ⟨n, hn⟩
  have hn0 : (0 : ℚ) ≤ (n : ℚ) + 1/2 := hn ▸ abs_nonneg q
  have hnn : (0 : ℚ) ≤ (n : ℚ) := by
    by_contra hneg
    push_neg at hneg
    have h1 : n < 0 := by exact_mod_cast hneg
    have h2 : n ≤ -1 := by omega
    have h3 : (n : ℚ) ≤ -1 := by exact_mod_cast h2
    linarith
  have hcast : ∀ m : ℤ, (0 : ℚ) ≤ (m : ℚ) → |(m : ℚ)| = (m : ℚ) :=
    fun m hm => abs_of_nonneg hm
  rcases le_or_lt 0 q with hq | hq
  · have hq' : q = (n : ℚ) + 1/2 := by rwa [abs_of_nonneg hq] at hn
    have hfloor : roundHalfUp q = n + 1 := by
      rw [roundHalfUp, if_pos hq, hq']
      have h2 : (n : ℚ) + 1/2 + 1/2 = ((n + 1 : ℤ) : ℚ) := by push_cast; ring
      rw [h2, Int.floor_intCast]
    have habs : |((n + 1 : ℤ) : ℚ)| = (n : ℚ) + 1 := by
      rw [abs_of_nonneg (by push_cast; linarith)]
      push_cast; ring
    rw [hn, hfloor, habs]
    linarith
  · have hq' : -q = (n : ℚ) + 1/2 := by rwa [abs_of_neg hq] at hn
    have hfloor : roundHalfUp q = -(n + 1) := by
      rw [roundHalfUp, if_neg (not_le.mpr hq), hq']
      have h2 : (n : ℚ) + 1/2 + 1/2 = ((n + 1 : ℤ) : ℚ) := by push_cast; ring
      rw [h2, Int.floor_intCast]
    have habs : |((-(n + 1) : ℤ) : ℚ)| = (n : ℚ) + 1 := by
      have h3 : ((-(n + 1) : ℤ) : ℚ) = -((n : ℚ) + 1) := by push_cast; ring
      rw [h3, abs_neg, abs_of_nonneg (by linarith)]
    rw [hn, hfloor, habs]
    linarith

/-- C5 witness: the general half-integer clause applied at the concrete
input 7/2, whose fractional part is exactly one half. -/
theorem roundHalfUp_half_away_from_zero_witness :
    |(7/2 : ℚ)| < |((roundHalfUp (7/2) : ℤ) : ℚ)| :=
  roundHalfUp_half_away_from_zero.2.2.2 (7/2) ⟨3, by norm_num⟩

/-- C7: `compute_dimension_score` with the default `max_per_answer = 5` is
`min(weight, round_half_up(sum/(5*len) * weight))` on non-empty answers and
0 on empty ones; `DeclaredEvaluator.evaluate` partitions the answers into
T1-T4/C1-C4/M1-M2 with weights 20/20/10 and totals the three dimension
scores; on the spec's example questionnaire the scores are 15, 12, 5 with
total 32. -/
theorem declared_evaluator_partition_and_example :
    (∀ (answers : List ℕ) (weight : ℕ), answers ≠ [] →
      computeDimensionScore answers weight 5 =
        min (weight : ℤ)
          (roundHalfUp ((answers.sum : ℚ) / (5 * answers.length) * weight))) ∧
    (∀ weight : ℕ, computeDimensionScore [] weight 5 = 0) ∧
    (∀ a : QuestionnaireAnswers,
      (declaredEvaluate a).technical =
        computeDimensionScore [a.T1, a.T2, a.T3, a.T4] 20 5 ∧
      (declaredEvaluate a).content_keywords =
        computeDimensionScore [a.C1, a.C2, a.C3, a.C4] 20 5 ∧
      (declaredEvaluate a).measurement =
        computeDimensionScore [a.M1, a.M2] 10 5 ∧
      (declaredEvaluate a).total =
        (declaredEvaluate a).technical + (declaredEvaluate a).content_keywords +
          (declaredEvaluate a).measurement) ∧
    declaredEvaluate ⟨4, 3, 5, 3, 4, 3, 2, 3, 2, 3⟩ = ⟨15, 12, 5, 32⟩ := by
  refine ⟨?_, ?_, ?_, ?_⟩
  · intro answers weight h
    have hlen : answers.length ≠ 0 := fun hl => h (List.length_eq_zero.mp hl)
    rw [computeDimensionScore, if_neg h, if_neg (by simpa using hlen)]
    rw [min_comm]
    congr 2
    push_cast
    ring
  · intro weight
    simp [computeDimensionScore]
  · intro a
    exact ⟨rfl, rfl, rfl, rfl⟩
  · norm_num [declaredEvaluate, computeDimensionScore, roundHalfUp, List.cons_ne_nil]

/-- C7 witness: the non-empty dimension-score clause applied at the concrete
Technical group [4,3,5,3] with weight 20. -/
theorem declared_evaluator_partition_witness :
    computeDimensionScore [4, 3, 5, 3] 20 5 =
      min (20 : ℤ)
        (roundHalfUp ((([4, 3, 5, 3] : List ℕ).sum : ℚ) /
          (5 * ([4, 3, 5, 3] : List ℕ).length) * 20)) :=
  declared_evaluator_partition_and_example.1 [4, 3, 5, 3] 20 (by simp)

/-- C8: the final score is the clamp of the sum of the two totals to
[0,100]; the stage bands have inclusive upper boundaries 30/50/70/85; and
on the spec's end-to-end scenario (declared 32, observed 33) the final
score is 65, the stage is "Structured", and the gap description has
"Minimal" severity. -/
theorem final_score_clamp_and_stage_bands :
    (∀ declaredTotal observedTotal : ℤ,
      computeFinalScore declaredTotal observedTotal =
        min 100 (max 0 (declaredTotal + observedTotal))) ∧
    computeStage 30 = "Chaotic" ∧ computeStage 31 = "Reactive" ∧
    computeStage 50 = "Reactive" ∧ computeStage 51 = "Structured" ∧
    computeStage 85 = "Optimised" ∧ computeStage 86 = "Strategic" ∧
    computeFinalScore 32 33 = 65 ∧
    computeStage (computeFinalScore 32 33) = "Structured" ∧
    computeGapDescription 32 33 =
      "Minimal — declared and observed capabilities are well-aligned" := by
  refine ⟨?_, ?_, ?_, ?_, ?_, ?_, ?_, ?_, ?_, ?_⟩
  · intro d o
    rw [computeFinalScore]
    omega
  · norm_num [computeStage]
  · norm_num [computeStage]
  · norm_num [computeStage]
  · norm_num [computeStage]
  · norm_num [computeStage]
  · norm_num [computeStage]
  · norm_num [computeFinalScore]
  · norm_num [computeStage, computeFinalScore]
  · norm_num [computeGapDescription]
    rfl

/-- Helper: round-half-up of a non-negative value is non-negative. -/
theorem roundHalfUp_nonneg (q : ℚ) (hq : 0 ≤ q) : 0 ≤ roundHalfUp q := by
  rw [roundHalfUp, if_pos hq]
  rw [Int.le_floor]
  push_cast
  linarith

/-- Helper: round-half-up is monotone on non-negative inputs. -/
theorem roundHalfUp_mono_of_nonneg (x y : ℚ) (hx : 0 ≤ x) (hxy : x ≤ y) :
    roundHalfUp x ≤ roundHalfUp y := by
  rw [roundHalfUp, roundHalfUp, if_pos hx, if_pos (le_trans hx hxy)]
  exact Int.floor_le_floor (by linarith)

/-- C6: for every subscore (out-of-range values included) and every bucket
weight in {5,10,15,20}, the observed bucket score lies in [0, weight]
(clamp-then-round never exceeds the cap), and for a fixed weight the score
is monotone non-decreasing in the subscore. -/
theorem observed_bucket_score_bounds_and_mono (weight : ℕ)
    (_hw : weight ∈ ({5, 10, 15, 20} : Finset ℕ)) :
    (∀ s : ℚ, 0 ≤ computeObservedBucketScore s weight ∧
      computeObservedBucketScore s weight ≤ (weight : ℤ)) ∧
    (∀ s t : ℚ, s ≤ t →
      computeObservedBucketScore s weight ≤ computeObservedBucketScore t weight) := by
  constructor
  · intro s
    constructor
    · rw [computeObservedBucketScore]
      refine le_min ?_ (by positivity)
      refine roundHalfUp_nonneg _ ?_
      have h0 : (0 : ℚ) ≤ max 0 (min 1 s) := le_max_left 0 _
      positivity
    · exact min_le_right _ _
  · intro s t hst
    rw [computeObservedBucketScore, computeObservedBucketScore]
    refine min_le_min ?_ le_rfl
    refine roundHalfUp_mono_of_nonneg _ _ ?_ ?_
    · have h0 : (0 : ℚ) ≤ max 0 (min 1 s) := le_max_left 0 _
      positivity
    · have hclamp : max 0 (min 1 s) ≤ max 0 (min 1 t) :=
        max_le_max le_rfl (min_le_min le_rfl hst)
      have hwn : (0 : ℚ) ≤ (weight : ℚ) := by positivity
      exact mul_le_mul_of_nonneg_right hclamp hwn

/-- C6 witness: the bounds and monotonicity clauses applied at weight 15
(which is in the allowed weight set) and concrete subscores. -/
theorem observed_bucket_score_bounds_witness :
    (0 ≤ computeObservedBucketScore (7/10) 15 ∧
      computeObservedBucketScore (7/10) 15 ≤ (15 : ℤ)) ∧
    computeObservedBucketScore (-3) 15 ≤ computeObservedBucketScore (12) 15 :=
  ⟨(observed_bucket_score_bounds_and_mono 15 (by decide)).1 (7/10),
    (observed_bucket_score_bounds_and_mono 15 (by decide)).2 (-3) 12 (by norm_num)⟩

/-- Helper: the SERP points fold equals 1 point per top-10 result plus half
a point per top-30-but-not-top-10 result. -/
theorem serpPointsFold_eq_counts (l : List SERPResult) (acc : ℚ) :
    l.foldl
        (fun acc r => if r.is_top10 then acc + 1
          else if r.is_top30 then acc + 1/2 else acc) acc =
      acc + (l.countP fun r => r.is_top10) +
        ((l.countP fun r => !r.is_top10 && r.is_top30) : ℚ) / 2 := by
  induction l generalizing acc with
  | nil => simp
  | cons r t ih =>
    rw [List.foldl_cons, List.countP_cons, List.countP_cons]
    cases h10 : r.is_top10 with
    | true =>
      simp only [ih, if_true, Bool.not_true, Bool.false_and, eq_self_iff_true,
        if_false, Bool.false_eq_true, add_zero]
      push_cast
      ring
    | false =>
      cases h30 : r.is_top30 with
      | true =>
        simp only [ih, if_true, if_false, Bool.not_false, Bool.true_and,
          eq_self_iff_true, Bool.false_eq_true, add_zero]
        push_cast
        ring
      | false =>
        simp only [ih, if_false, eq_self_iff_true, Bool.false_eq_true,
          Bool.not_false, Bool.true_and, add_zero]

/-- C2: the SERP subscore is the clipped average of 1.0 per top-10 keyword
and 0.5 per top-30-not-top-10 keyword over the keyword count, 0.0 for zero
keywords; in the unconfigured fallback every keyword is marked not found, so
the subscore is 0.0 for every non-empty keyword list. -/
theorem serp_subscore_points_and_fallback_zero :
    (∀ summary : SERPSummary, computeSerpSubscore summary 0 = 0) ∧
    (∀ (summary : SERPSummary) (numKeywords : ℕ), numKeywords ≠ 0 →
      computeSerpSubscore summary numKeywords =
        max 0 (min 1
          (((summary.results.countP fun r => r.is_top10) +
            ((summary.results.countP fun r => !r.is_top10 && r.is_top30) : ℚ) / 2) /
            (numKeywords : ℚ)))) ∧
    (∀ keywords : List String, keywords ≠ [] →
      computeSerpSubscore (checkKeywordsFallback keywords) keywords.length = 0) := by
  have hcount10 : ∀ keywords : List String,
      (fallbackResults keywords).countP (fun r => r.is_top10) = 0 := by
    intro keywords
    rw [List.countP_eq_zero]
    intro r hr
    rw [fallbackResults, List.mem_map] at hr
    obtain ⟨k, _, rfl⟩ := hr
    simp
  have hcount30 : ∀ keywords : List String,
      (fallbackResults keywords).countP (fun r => !r.is_top10 && r.is_top30) = 0 := by
    intro keywords
    rw [List.countP_eq_zero]
    intro r hr
    rw [fallbackResults, List.mem_map] at hr
    obtain ⟨k, _, rfl⟩ := hr
    simp
  refine ⟨?_, ?_, ?_⟩
  · intro summary
    rw [computeSerpSubscore, if_pos rfl]
  · intro summary numKeywords h
    rw [computeSerpSubscore, if_neg h]
    rw [serpPointsFold_eq_counts]
    rw [zero_add]
  · intro keywords h
    have hlen : keywords.length ≠ 0 := fun hl => h (List.length_eq_zero.mp hl)
    rw [computeSerpSubscore, if_neg hlen]
    rw [checkKeywordsFallback, if_neg h]
    rw [serpPointsFold_eq_counts]
    rw [hcount10, hcount30]
    norm_num

/-- C2 witness: the point formula applied to a concrete two-result summary
(one top-10 hit, one top-30 hit), and the fallback clause applied to a
concrete one-keyword list. -/
theorem serp_subscore_points_witness :
    computeSerpSubscore
        ⟨[⟨"a", some 5, true, true, none⟩, ⟨"b", some 25, false, true, none⟩], 1, 2, false⟩ 2 =
      max 0 (min 1
        ((((([⟨"a", some 5, true, true, none⟩, ⟨"b", some 25, false, true, none⟩] :
            List SERPResult).countP fun r => r.is_top10) : ℚ) +
          ((([⟨"a", some 5, true, true, none⟩, ⟨"b", some 25, false, true, none⟩] :
            List SERPResult).countP fun r => !r.is_top10 && r.is_top30) : ℚ) / 2) / (2 : ℚ))) ∧
    computeSerpSubscore (checkKeywordsFallback ["a"]) (["a"] : List String).length = 0 :=
  ⟨serp_subscore_points_and_fallback_zero.2.1 _ 2 (by norm_num),
    serp_subscore_points_and_fallback_zero.2.2 ["a"] (by simp)⟩

/-- C3 counterexample: with the default limiter configuration and a state
already at 3 consecutive failures, a further `report_failure` at time 100
returns False and leaves `backoff_until` at its old value 0, not at
`now + min(max_backoff, base_backoff * 2^(failures-1)) = 108` as the claim
requires of every call. -/
theorem reportFailure_exhausted_keeps_backoff :
    (reportFailure defaultRateLimiterConfig 100 ⟨0, 3, 0⟩).2 = false ∧
    (reportFailure defaultRateLimiterConfig 100 ⟨0, 3, 0⟩).1.consecutive_failures = 4 ∧
    (reportFailure defaultRateLimiterConfig 100 ⟨0, 3, 0⟩).1.backoff_until = 0 ∧
    ¬ (reportFailure defaultRateLimiterConfig 100 ⟨0, 3, 0⟩).1.backoff_until =
        100 + min (defaultRateLimiterConfig.base_backoff * 2 ^ (4 - 1))
          defaultRateLimiterConfig.max_backoff := by
  refine ⟨?_, ?_, ?_, ?_⟩ <;>
    norm_num [reportFailure, defaultRateLimiterConfig]

/-- C3 (amended): `report_failure` increments the counter and returns True
exactly when the incremented count is still within `max_retries`; the
backoff window `now + min(base_backoff * 2^(failures-1), max_backoff)` is
written only in that case, and is left unchanged when retries are exhausted.
`report_success` resets the counter and the backoff window to zero. -/
theorem reportFailure_reportSuccess_spec :
    (∀ (cfg : RateLimiterConfig) (now : ℚ) (st : RateLimitState),
      (reportFailure cfg now st).1.consecutive_failures =
        st.consecutive_failures + 1 ∧
      ((reportFailure cfg now st).2 = true ↔
        st.consecutive_failures + 1 ≤ cfg.maxRetries) ∧
      (st.consecutive_failures + 1 ≤ cfg.maxRetries →
        (reportFailure cfg now st).1.backoff_until =
          now + min (cfg.base_backoff * 2 ^ (st.consecutive_failures + 1 - 1))
            cfg.max_backoff) ∧
      (cfg.maxRetries < st.consecutive_failures + 1 →
        (reportFailure cfg now st).1.backoff_until = st.backoff_until) ∧
      (reportFailure cfg now st).1.last_request_time = st.last_request_time) ∧
    (∀ st : RateLimitState,
      (reportSuccess st).consecutive_failures = 0 ∧
      (reportSuccess st).backoff_until = 0 ∧
      (reportSuccess st).last_request_time = st.last_request_time) := by
  constructor
  · intro cfg now st
    rw [reportFailure]
    by_cases h : cfg.maxRetries < st.consecutive_failures + 1
    · rw [if_pos h]
      refine ⟨rfl, ?_, ?_, fun _ => rfl, rfl⟩
      · simp only [Bool.false_eq_true, false_iff]
        omega
      · intro hle
        omega
    · rw [if_neg h]
      refine ⟨rfl, ?_, fun _ => rfl, ?_, rfl⟩
      · simp only [true_iff]
        omega
      · intro hlt
        omega
  · intro st
    exact ⟨rfl, rfl, rfl⟩

/-- C3 witness: the amended specification applied at the default
configuration, time 7 and a fresh state: the first failure sets the backoff
window to `7 + min(1 * 2^0, 30) = 8` and returns True. -/
theorem reportFailure_spec_witness :
    (reportFailure defaultRateLimiterConfig 7 ⟨0, 0, 0⟩).1.backoff_until =
      7 + min (defaultRateLimiterConfig.base_backoff * 2 ^ (0 + 1 - 1))
        defaultRateLimiterConfig.max_backoff :=
  ((reportFailure_reportSuccess_spec.1 defaultRateLimiterConfig 7 ⟨0, 0, 0⟩).2.2.1
    (by norm_num [defaultRateLimiterConfig]))

/-- Helper: a string with a non-empty prefix is truthy. -/
theorem strTruthy_some_append (s t : String) (h : s ≠ "") :
    strTruthy (some (s ++ t)) = true := by
  have hne : s ++ t ≠ "" := by
    intro he
    apply h
    have hd : (s ++ t).data = ("" : String).data := congrArg String.data he
    rw [String.data_append] at hd
    have hs : s.data = [] := List.append_eq_nil.mp hd |>.1
    cases s
    simp_all
  simp [strTruthy, hne]

/-- C4 counterexample: `AuthorityAdapter._fallback_estimation` produces a
fallback record (source "fallback") whose `error` is `None`; the
`AuthorityMetrics` dataclass has no `is_approximate` field at all, so the
record carries neither an approximation flag nor an explanatory error,
contradicting the claim's "every metric record returned by a fallback path". -/
theorem authority_fallback_record_unflagged :
    (fallbackEstimation "example.com" (some 6) false).source = "fallback" ∧
    (fallbackEstimation "example.com" (some 6) false).error = none ∧
    ¬ specFlaggedAuthority (fallbackEstimation "example.com" (some 6) false) := by
  refine ⟨rfl, rfl, ?_⟩
  simp [specFlaggedAuthority, fallbackEstimation, strTruthy]

/-- C4 (amended): with no API keys configured all four adapters resolve to
their fallback backends; the PageSpeed, WHOIS and SERP fallback paths tag
every record with `is_approximate` and/or a non-empty error, while the
Authority fallback record carries neither (its dataclass has no
`is_approximate` field and its error stays `None`) and is distinguishable
from a live measurement only by its `source = "fallback"` tag. -/
theorem fallback_activation_amended :
    pagespeedIsConfigured none = false ∧
    serpBackendOf none none none = "fallback" ∧
    whoisIsConfigured none = false ∧
    authorityBackendOf none none none none = "fallback" ∧
    (∀ outcome : FetchOutcome,
      (fallbackHeuristics outcome).is_approximate = true ∧
      strTruthy (fallbackHeuristics outcome).error = true) ∧
    (∀ (domain : String) (outcome : WhoisOutcome),
      (fallbackWhois domain outcome).is_approximate = true) ∧
    (∀ keywords : List String, keywords ≠ [] →
      (checkKeywordsFallback keywords).is_approximate = true ∧
      ∀ r ∈ (checkKeywordsFallback keywords).results, strTruthy r.error = true) ∧
    (∀ (domain : String) (age : Option ℤ) (brand : Bool),
      (fallbackEstimation domain age brand).source = "fallback" ∧
      (fallbackEstimation domain age brand).error = none) := by
  refine ⟨rfl, rfl, rfl, rfl, ?_, ?_, ?_, ?_⟩
  · intro outcome
    cases outcome with
    | ok totalMs contentLength =>
      refine ⟨rfl, ?_⟩
      show strTruthy
        (some "Estimated from response timing (PageSpeed API not available)") = true
      decide
    | timeout => exact ⟨rfl, by decide⟩
    | exc msg =>
      exact ⟨rfl, strTruthy_some_append "Could not analyze site: " msg (by decide)⟩
  · intro domain outcome
    cases outcome <;> rfl
  · intro keywords h
    refine ⟨by rw [checkKeywordsFallback, if_neg h], ?_⟩
    intro r hr
    rw [checkKeywordsFallback, if_neg h] at hr
    simp only at hr
    rw [fallbackResults, List.mem_map] at hr
    obtain ⟨k, _, rfl⟩ := hr
    show strTruthy (some "No SERP API configured") = true
    decide
  · intro domain age brand
    exact ⟨rfl, rfl⟩

/-- C4 witness: the SERP fallback clause applied at the concrete keyword
list ["a"]. -/
theorem fallback_activation_witness :
    (checkKeywordsFallback ["a"]).is_approximate = true :=
  (fallback_activation_amended.2.2.2.2.2.2.1 ["a"] (by simp)).1

/-- Helper: every CWV candidate message belongs to the CWV bucket. -/
theorem cwvCandidate_cat (i : RiskInput) :
    ∀ p ∈ (cwvCandidate i).toList, bucketCat p.2 = some RiskCat.cwv := by
  intro p hp
  rw [Option.mem_toList, Option.mem_def, cwvCandidate] at hp
  split_ifs at hp <;>
    first
      | (exact absurd hp.symm (Option.some_ne_none _))
      | (simp only [Option.some.injEq] at hp
         subst hp
         rfl)

/-- Helper: every on-page candidate message belongs to the on-page bucket. -/
theorem onpageCandidate_cat (i : RiskInput) :
    ∀ p ∈ (onpageCandidate i).toList, bucketCat p.2 = some RiskCat.onpage := by
  intro p hp
  rw [Option.mem_toList, Option.mem_def, onpageCandidate] at hp
  split_ifs at hp <;>
    first
      | (exact absurd hp.symm (Option.some_ne_none _))
      | (simp only [Option.some.injEq] at hp
         subst hp
         rfl)

/-- Helper: every authority candidate message belongs to the authority
bucket. -/
theorem authorityCandidate_cat (i : RiskInput) :
    ∀ p ∈ (authorityCandidate i).toList, bucketCat p.2 = some RiskCat.authority := by
  intro p hp
  rw [Option.mem_toList, Option.mem_def, authorityCandidate] at hp
  split_ifs at hp <;>
    first
      | (exact absurd hp.symm (Option.some_ne_none _))
      | (simp only [Option.some.injEq] at hp
         subst hp
         rfl)

/-- Helper: every SERP candidate message belongs to the SERP bucket. -/
theorem serpCandidate_cat (i : RiskInput) :
    ∀ p ∈ (serpCandidate i).toList, bucketCat p.2 = some RiskCat.serp := by
  intro p hp
  rw [Option.mem_toList, Option.mem_def, serpCandidate] at hp
  split_ifs at hp <;>
    first
      | (exact absurd hp.symm (Option.some_ne_none _))
      | (simp only [Option.some.injEq] at hp
         subst hp
         rfl)

/-- Helper: the gap candidate messages belong to no bucket. -/
theorem gapCandidate_cat (i : RiskInput) :
    ∀ p ∈ (gapCandidate i).toList, bucketCat p.2 = none := by
  intro p hp
  rw [Option.mem_toList, Option.mem_def, gapCandidate] at hp
  split_ifs at hp <;>
    first
      | (exact absurd hp.symm (Option.some_ne_none _))
      | (simp only [Option.some.injEq] at hp
         subst hp
         rfl)

/-- Helper: a candidate whose message is one of the two capability-gap
messages can only come from the gap check. -/
theorem gap_msg_src (i : RiskInput) :
    ∀ p ∈ riskCandidates i,
      (p.2 = RiskMsg.gapHallucination ∨ p.2 = RiskMsg.gapUnderutilized) →
        p ∈ (gapCandidate i).toList := by
  intro p hp hmsg
  simp only [riskCandidates, List.mem_append] at hp
  rcases hp with ((((h | h) | h) | h) | h)
  · have := cwvCandidate_cat i p h
    rcases hmsg with hm | hm <;> rw [hm] at this <;> simp [bucketCat] at this
  · have := onpageCandidate_cat i p h
    rcases hmsg with hm | hm <;> rw [hm] at this <;> simp [bucketCat] at this
  · have := authorityCandidate_cat i p h
    rcases hmsg with hm | hm <;> rw [hm] at this <;> simp [bucketCat] at this
  · have := serpCandidate_cat i p h
    rcases hmsg with hm | hm <;> rw [hm] at this <;> simp [bucketCat] at this
  · exact h

/-- Helper: the gap candidate exists exactly when the two totals differ by
more than 10 in absolute value. -/
theorem gapCandidate_isSome_iff (i : RiskInput) :
    (gapCandidate i).isSome = true ↔
      10 < |i.declaredTotal - i.observedTotal| := by
  rw [gapCandidate]
  constructor
  · intro h
    split_ifs at h with h1 h2
    · rw [lt_abs]
      exact Or.inl h1
    · rw [lt_abs]
      right
      omega
    · simp at h
  · intro h
    rw [lt_abs] at h
    split_ifs with h1 h2
    · rfl
    · rfl
    · exfalso
      rcases h with h | h
      · exact h1 h
      · omega

/-- Helper: a gap candidate is always one of the two gap messages. -/
theorem gapCandidate_msg (i : RiskInput) :
    ∀ p ∈ (gapCandidate i).toList,
      p.2 = RiskMsg.gapHallucination ∨ p.2 = RiskMsg.gapUnderutilized := by
  intro p hp
  rw [Option.mem_toList, Option.mem_def, gapCandidate] at hp
  split_ifs at hp <;>
    first
      | (exact absurd hp.symm (Option.some_ne_none _))
      | (simp only [Option.some.injEq] at hp
         subst hp
         first | (exact Or.inl rfl) | (exact Or.inr rfl))

/-- Helper: `compute_gap_description` written with the five merged literal
result strings. -/
theorem gapDescription_eq (d o : ℤ) :
    computeGapDescription d o =
      if |d - o| ≤ 3 then
        "Minimal — declared and observed capabilities are well-aligned"
      else if |d - o| ≤ 10 then
        if 0 < d - o then
          "Moderate — declared capability somewhat exceeds observable execution"
        else
          "Moderate — observable execution somewhat stronger than declared capability"
      else
        if 0 < d - o then
          "High — declared capability significantly exceeds observable execution"
        else
          "High — observable execution significantly stronger than declared capability" := by
  rw [computeGapDescription]
  split_ifs <;> rfl

/-- Helper: the gap description reports "High" severity exactly when the two
totals differ by more than 10. -/
theorem gapDescription_high_iff (d o : ℤ) :
    computeGapDescription d o ∈
        (["High — declared capability significantly exceeds observable execution",
          "High — observable execution significantly stronger than declared capability"] :
          List String) ↔
      10 < |d - o| := by
  rw [gapDescription_eq]
  split_ifs with h1 h2 h3
  · exact iff_of_false (by decide) (not_lt.mpr (le_trans h1 (by norm_num)))
  · exact iff_of_false (by decide) (not_lt.mpr h2)
  · exact iff_of_false (by decide) (not_lt.mpr h2)
  · exact iff_of_true (by decide) (not_le.mp h2)
  · exact iff_of_true (by decide) (not_le.mp h2)

/-- C10: `identify_top_risks` generates a capability-mismatch candidate risk
(in either direction) exactly when `compute_gap_description` reports "High"
severity, and both happen exactly when the declared and observed totals
differ by more than 10 — the risk list and the gap description can never
contradict each other. -/
theorem gap_risk_iff_high_severity :
    ∀ i : RiskInput,
      ((∃ p ∈ riskCandidates i,
          p.2 = RiskMsg.gapHallucination ∨ p.2 = RiskMsg.gapUnderutilized) ↔
        computeGapDescription i.declaredTotal i.observedTotal ∈
          (["High — declared capability significantly exceeds observable execution",
            "High — observable execution significantly stronger than declared capability"] :
            List String)) ∧
      ((∃ p ∈ riskCandidates i,
          p.2 = RiskMsg.gapHallucination ∨ p.2 = RiskMsg.gapUnderutilized) ↔
        10 < |i.declaredTotal - i.observedTotal|) := by
  intro i
  have hmain : (∃ p ∈ riskCandidates i,
      p.2 = RiskMsg.gapHallucination ∨ p.2 = RiskMsg.gapUnderutilized) ↔
      10 < |i.declaredTotal - i.observedTotal| := by
    constructor
    · rintro ⟨p, hp, hmsg⟩
      have hg := gap_msg_src i p hp hmsg
      rw [Option.mem_toList] at hg
      rw [← gapCandidate_isSome_iff]
      exact Option.isSome_iff_exists.mpr ⟨p, hg⟩
    · intro h
      rw [← gapCandidate_isSome_iff] at h
      obtain ⟨p, hp⟩ := Option.isSome_iff_exists.mp h
      have hmem : p ∈ (gapCandidate i).toList := by
        rw [Option.mem_toList, Option.mem_def]
        exact hp
      refine ⟨p, ?_, gapCandidate_msg i p hmem⟩
      simp only [riskCandidates, List.mem_append]
      exact Or.inr hmem
  exact ⟨hmain.trans (gapDescription_high_iff _ _).symm, hmain⟩

/-- Two risk messages with no bucket category in common (messages without a
bucket are compatible with everything). -/
def distinctBuckets (x y : RiskMsg) : Prop :=
  ∀ c : RiskCat, bucketCat x = some c → bucketCat y ≠ some c

/-- Helper: `distinctBuckets` is symmetric. -/
theorem distinctBuckets_symm : Symmetric distinctBuckets := by
  intro x y hxy c hyc hxc
  exact hxy c hxc hyc

/-- Helper: messages with different bucket categories are distinct. -/
theorem distinctBuckets_of_ne {x y : RiskMsg} {cx cy : RiskCat}
    (hx : bucketCat x = some cx) (hy : bucketCat y = some cy) (h : cx ≠ cy) :
    distinctBuckets x y := by
  intro c hc
  rw [hx] at hc
  injection hc with hc
  subst hc
  rw [hy]
  intro he
  injection he with he
  exact h he.symm

/-- Helper: a message without a bucket is distinct from anything. -/
theorem distinctBuckets_of_none_right {x y : RiskMsg}
    (hy : bucketCat y = none) : distinctBuckets x y := by
  intro c _ he
  rw [hy] at he
  exact Option.noConfusion he

/-- Helper: a message without a bucket is distinct from anything (left). -/
theorem distinctBuckets_of_none_left {x y : RiskMsg}
    (hx : bucketCat x = none) : distinctBuckets x y := by
  intro c hc
  rw [hx] at hc
  exact Option.noConfusion hc

/-- Helper: a message contains "Web Vitals" exactly when it belongs to the
CWV bucket. -/
theorem containsWebVitals_iff_cat (m : RiskMsg) :
    containsWebVitals m = true ↔ bucketCat m = some RiskCat.cwv := by
  cases m <;> simp [containsWebVitals, bucketCat]

/-- Helper: a message containing "on-page" belongs to the on-page bucket. -/
theorem containsOnPage_cat (m : RiskMsg) (h : containsOnPage m = true) :
    bucketCat m = some RiskCat.onpage := by
  cases m <;> simp_all [containsOnPage, bucketCat]

/-- Helper: an on-page-bucket message is the catastrophe message or contains
"on-page". -/
theorem onpage_cat_cases (m : RiskMsg) (h : bucketCat m = some RiskCat.onpage) :
    m = RiskMsg.onpageCatastrophe ∨ containsOnPage m = true := by
  cases m <;> simp_all [containsOnPage, bucketCat]

/-- Helper: when the CWV fill ratio is below the last threshold, a CWV
candidate is generated. -/
theorem cwvCandidate_isSome (i : RiskInput) (h : i.cwvRatio < 4/5) :
    (cwvCandidate i).isSome = true := by
  rw [cwvCandidate]
  split_ifs <;> simp_all

/-- Helper: when the on-page fill ratio is below the last threshold, an
on-page candidate is generated. -/
theorem onpageCandidate_isSome (i : RiskInput) (h : i.onpageRatio < 3/4) :
    (onpageCandidate i).isSome = true := by
  rw [onpageCandidate]
  split_ifs <;> simp_all

/-- Helper: a CWV-bucket candidate is among the risk candidates whenever the
CWV ratio is below 0.8. -/
theorem exists_cwv_mem_candidates (i : RiskInput) (h : i.cwvRatio < 4/5) :
    ∃ p ∈ riskCandidates i, bucketCat p.2 = some RiskCat.cwv := by
  obtain ⟨p, hp⟩ := Option.isSome_iff_exists.mp (cwvCandidate_isSome i h)
  have hmem : p ∈ (cwvCandidate i).toList := by
    rw [Option.mem_toList, Option.mem_def]
    exact hp
  refine ⟨p, ?_, cwvCandidate_cat i p hmem⟩
  simp only [riskCandidates, List.mem_append]
  exact Or.inl (Or.inl (Or.inl (Or.inl hmem)))

/-- Helper: an on-page-bucket candidate is among the risk candidates
whenever the on-page ratio is below 0.75. -/
theorem exists_onpage_mem_candidates (i : RiskInput) (h : i.onpageRatio < 3/4) :
    ∃ p ∈ riskCandidates i, bucketCat p.2 = some RiskCat.onpage := by
  obtain ⟨p, hp⟩ := Option.isSome_iff_exists.mp (onpageCandidate_isSome i h)
  have hmem : p ∈ (onpageCandidate i).toList := by
    rw [Option.mem_toList, Option.mem_def]
    exact hp
  refine ⟨p, ?_, onpageCandidate_cat i p hmem⟩
  simp only [riskCandidates, List.mem_append]
  exact Or.inl (Or.inl (Or.inl (Or.inr hmem)))

/-- Helper: the catastrophe message is generated only when the on-page ratio
is below 0.5. -/
theorem onpageCatastrophe_src (i : RiskInput) :
    ∀ p ∈ riskCandidates i, p.2 = RiskMsg.onpageCatastrophe →
      i.onpageRatio < 1/2 := by
  intro p hp hmsg
  simp only [riskCandidates, List.mem_append] at hp
  rcases hp with ((((h | h) | h) | h) | h)
  · have := cwvCandidate_cat i p h
    rw [hmsg] at this
    simp [bucketCat] at this
  · rw [Option.mem_toList, Option.mem_def, onpageCandidate] at h
    split_ifs at h with h1 h2
    · exact h1
    · exfalso
      simp only [Option.some.injEq] at h
      subst h
      simp at hmsg
  · have := authorityCandidate_cat i p h
    rw [hmsg] at this
    simp [bucketCat] at this
  · have := serpCandidate_cat i p h
    rw [hmsg] at this
    simp [bucketCat] at this
  · have := gapCandidate_cat i p h
    rw [hmsg] at this
    simp [bucketCat] at this

/-- Helper: a list containing two distinct elements has length at least 2. -/
theorem two_le_length_of_mem_ne {α : Type} [DecidableEq α] {l : List α}
    {x y : α} (hx : x ∈ l) (hy : y ∈ l) (hne : x ≠ y) : 2 ≤ l.length := by
  have h1 : y ∈ l.erase x := (List.mem_erase_of_ne hne.symm).mpr hy
  have h2 : 0 < (l.erase x).length := List.length_pos_of_mem h1
  have h3 : (l.erase x).length = l.length - 1 := List.length_erase_of_mem hx
  have h4 : 0 < l.length := List.length_pos_of_mem hx
  omega

/-- Helper: the backfill loop does nothing once three risks are present. -/
theorem backfillLoop_of_three_le (i : RiskInput) (fuel : ℕ) (rs : List RiskMsg)
    (h : 3 ≤ rs.length) : backfillLoop i fuel rs = rs := by
  cases fuel with
  | zero => rfl
  | succ n => rw [backfillLoop, if_neg (Nat.not_lt.mpr h)]

/-- Helper: the backfill loop always tops the risk list up to exactly three
entries, provided the list is not already longer, there is enough fuel, and
whenever the CWV (resp. on-page) ratio is below its backfill threshold the
list already holds a message of that bucket (which is how `identify_top_risks`
reaches the loop). -/
theorem backfillLoop_length (i : RiskInput) (hdOP : i.domainHasOnPage = false) :
    ∀ (fuel : ℕ) (rs : List RiskMsg),
      (4/5 ≤ i.cwvRatio ∨ ∃ x ∈ rs, bucketCat x = some RiskCat.cwv) →
      (3/4 ≤ i.onpageRatio ∨ ∃ x ∈ rs, bucketCat x = some RiskCat.onpage) →
      3 ≤ rs.length + fuel → rs.length ≤ 3 →
      (backfillLoop i fuel rs).length = 3 := by
  intro fuel
  induction fuel with
  | zero =>
    intro rs _ _ h3 hle
    simp only [backfillLoop]
    omega
  | succ n IH =>
    intro rs hP hQ h3 hle
    by_cases hlen : rs.length < 3
    · rw [backfillLoop, if_pos hlen]
      by_cases hg1 : 4/5 ≤ i.cwvRatio ∧ rs.countP containsWebVitals = 0
      · rw [if_pos hg1]
        refine IH _ ?_ ?_ ?_ ?_
        · exact Or.inr ⟨.backfillMonitoring, by simp, rfl⟩
        · rcases hQ with h | ⟨x, hx, hc⟩
          · exact Or.inl h
          · exact Or.inr ⟨x, List.mem_append.mpr (Or.inl hx), hc⟩
        · simp only [List.length_append, List.length_cons, List.length_nil]
          omega
        · simp only [List.length_append, List.length_cons, List.length_nil]
          omega
      · rw [if_neg hg1]
        by_cases hg2 : 3/4 ≤ i.onpageRatio ∧
            rs.countP (renderedContainsOnPage i) = 0
        · rw [if_pos hg2]
          refine IH _ ?_ ?_ ?_ ?_
          · rcases hP with h | ⟨x, hx, hc⟩
            · exact Or.inl h
            · exact Or.inr ⟨x, List.mem_append.mpr (Or.inl hx), hc⟩
          · exact Or.inr ⟨.backfillOptimization, by simp, rfl⟩
          · simp only [List.length_append, List.length_cons, List.length_nil]
            omega
          · simp only [List.length_append, List.length_cons, List.length_nil]
            omega
        · rw [if_neg hg2]
          have hx : ∃ x ∈ rs, bucketCat x = some RiskCat.cwv := by
            rcases not_and_or.mp hg1 with hc | hcnt
            · rcases hP with h | h
              · exact absurd h hc
              · exact h
            · obtain ⟨x, hxm, hxc⟩ :=
                List.countP_pos_iff.mp (Nat.pos_of_ne_zero hcnt)
              exact ⟨x, hxm, (containsWebVitals_iff_cat x).mp hxc⟩
          have hy : ∃ y ∈ rs, bucketCat y = some RiskCat.onpage := by
            rcases not_and_or.mp hg2 with hc | hcnt
            · rcases hQ with h | h
              · exact absurd h hc
              · exact h
            · obtain ⟨y, hym, hyc⟩ :=
                List.countP_pos_iff.mp (Nat.pos_of_ne_zero hcnt)
              rw [renderedContainsOnPage, hdOP, Bool.or_false] at hyc
              exact ⟨y, hym, containsOnPage_cat y hyc⟩
          obtain ⟨x, hxm, hxc⟩ := hx
          obtain ⟨y, hym, hyc⟩ := hy
          have hne : x ≠ y := by
            intro he
            rw [he, hyc] at hxc
            simp at hxc
          have h2 := two_le_length_of_mem_ne hxm hym hne
          simp only [List.length_append, List.length_cons, List.length_nil]
          omega
    · rw [backfillLoop, if_neg hlen]
      omega

/-- Helper: the options-as-lists used for the candidates are trivially
pairwise. -/
theorem option_toList_pairwise {α : Type} (o : Option α) (R : α → α → Prop) :
    o.toList.Pairwise R := by
  cases o <;> simp

/-- Helper: the backfill loop preserves bucket-distinctness of the risk
list: a monitoring (resp. optimization) message is only appended when no
CWV-bucket (resp. on-page-bucket) message is present, using the ratio guard
to rule out the catastrophe message, and the generic message has no bucket. -/
theorem backfillLoop_pairwise (i : RiskInput) :
    ∀ (fuel : ℕ) (rs : List RiskMsg),
      rs.Pairwise distinctBuckets →
      (RiskMsg.onpageCatastrophe ∈ rs → i.onpageRatio < 1/2) →
      (backfillLoop i fuel rs).Pairwise distinctBuckets := by
  intro fuel
  induction fuel with
  | zero =>
    intro rs hPW _
    simpa only [backfillLoop] using hPW
  | succ n IH =>
    intro rs hPW hInv
    by_cases hlen : rs.length < 3
    · rw [backfillLoop, if_pos hlen]
      by_cases hg1 : 4/5 ≤ i.cwvRatio ∧ rs.countP containsWebVitals = 0
      · rw [if_pos hg1]
        refine IH _ ?_ ?_
        · rw [List.pairwise_append]
          refine ⟨hPW, by simp, ?_⟩
          intro a ha b hb
          simp only [List.mem_singleton] at hb
          subst hb
          intro c hc he
          have hmc : bucketCat RiskMsg.backfillMonitoring = some RiskCat.cwv := rfl
          rw [hmc] at he
          injection he with he
          subst he
          have hcw : containsWebVitals a = true := (containsWebVitals_iff_cat a).mpr hc
          have hz := List.countP_eq_zero.mp hg1.2 a ha
          simp [hcw] at hz
        · intro hmem
          rcases List.mem_append.mp hmem with h | h
          · exact hInv h
          · simp at h
      · rw [if_neg hg1]
        by_cases hg2 : 3/4 ≤ i.onpageRatio ∧
            rs.countP (renderedContainsOnPage i) = 0
        · rw [if_pos hg2]
          refine IH _ ?_ ?_
          · rw [List.pairwise_append]
            refine ⟨hPW, by simp, ?_⟩
            intro a ha b hb
            simp only [List.mem_singleton] at hb
            subst hb
            intro c hc he
            have hoc : bucketCat RiskMsg.backfillOptimization = some RiskCat.onpage := rfl
            rw [hoc] at he
            injection he with he
            subst he
            rcases onpage_cat_cases a hc with hcat | hcop
            · subst hcat
              have hlt := hInv ha
              have hge := hg2.1
              linarith
            · have hz := List.countP_eq_zero.mp hg2.2 a ha
              simp [renderedContainsOnPage, hcop] at hz
          · intro hmem
            rcases List.mem_append.mp hmem with h | h
            · exact hInv h
            · simp at h
        · rw [if_neg hg2]
          rw [List.pairwise_append]
          refine ⟨hPW, by simp, ?_⟩
          intro a _ b hb
          simp only [List.mem_singleton] at hb
          subst hb
          exact distinctBuckets_of_none_right rfl
    · rw [backfillLoop, if_neg hlen]
      exact hPW

/-- Helper: the candidate list never holds two candidates of the same
bucket: each bucket contributes at most one candidate and the gap candidate
has no bucket. -/
theorem riskCandidates_pairwise (i : RiskInput) :
    (riskCandidates i).Pairwise (fun p q => distinctBuckets p.2 q.2) := by
  have hA := cwvCandidate_cat i
  have hB := onpageCandidate_cat i
  have hC := authorityCandidate_cat i
  have hD := serpCandidate_cat i
  have hE := gapCandidate_cat i
  rw [riskCandidates]
  rw [List.pairwise_append]
  refine ⟨?_, option_toList_pairwise _ _, ?_⟩
  · rw [List.pairwise_append]
    refine ⟨?_, option_toList_pairwise _ _, ?_⟩
    · rw [List.pairwise_append]
      refine ⟨?_, option_toList_pairwise _ _, ?_⟩
      · rw [List.pairwise_append]
        refine ⟨option_toList_pairwise _ _, option_toList_pairwise _ _, ?_⟩
        · intro a ha b hb
          exact distinctBuckets_of_ne (hA a ha) (hB b hb) (by simp)
      · intro a ha b hb
        rcases List.mem_append.mp ha with h | h
        · exact distinctBuckets_of_ne (hA a h) (hC b hb) (by simp)
        · exact distinctBuckets_of_ne (hB a h) (hC b hb) (by simp)
    · intro a ha b hb
      rcases List.mem_append.mp ha with h | h
      · rcases List.mem_append.mp h with h' | h'
        · exact distinctBuckets_of_ne (hA a h') (hD b hb) (by simp)
        · exact distinctBuckets_of_ne (hB a h') (hD b hb) (by simp)
      · exact distinctBuckets_of_ne (hC a h) (hD b hb) (by simp)
  · intro a _ b hb
    exact distinctBuckets_of_none_right (hE b hb)

/-- C9 (amended): for every input `identify_top_risks` returns at most 3
risk statements; the candidate risks are sorted ascending by fill ratio
before selection; no two returned risks belong to the same scoring bucket;
and the backfill tops the list up to exactly 3 entries PROVIDED the
interpolated domain does not itself contain the substring "on-page" — for a
domain such as `on-page.com` the rendered-message guard can cut the backfill
short at two entries (see the counterexample). -/
theorem identifyTopRisks_bounded_sorted_distinct :
    ∀ i : RiskInput,
      (identifyTopRisks i).length ≤ 3 ∧
      (i.domainHasOnPage = false → (identifyTopRisks i).length = 3) ∧
      (sortedCandidates i).Pairwise (fun p q => p.1 ≤ q.1) ∧
      (identifyTopRisks i).Pairwise distinctBuckets := by
  intro i
  have hlen_map : ((sortedCandidates i).map Prod.snd).length =
      (riskCandidates i).length := by
    rw [List.length_map, sortedCandidates, List.length_insertionSort]
  have hperm : List.Perm ((sortedCandidates i).map Prod.snd)
      ((riskCandidates i).map Prod.snd) := by
    rw [sortedCandidates]
    exact (List.perm_insertionSort _ _).map _
  refine ⟨?_, ?_, ?_, ?_⟩
  · rw [identifyTopRisks, List.length_take]
    omega
  · intro hdOP
    rw [identifyTopRisks]
    rcases le_or_lt 3 (riskCandidates i).length with hn | hn
    · have h0 : (((sortedCandidates i).map Prod.snd).take 3).length = 3 := by
        rw [List.length_take, hlen_map]
        omega
      rw [backfillLoop_of_three_le i 3 _ (le_of_eq h0.symm)]
      rw [List.length_take, h0]
      omega
    · have hfull : ((sortedCandidates i).map Prod.snd).take 3 =
          (sortedCandidates i).map Prod.snd := by
        apply List.take_of_length_le
        omega
      have hmem_iff : ∀ m : RiskMsg,
          m ∈ ((sortedCandidates i).map Prod.snd).take 3 ↔
            m ∈ (riskCandidates i).map Prod.snd := by
        intro m
        rw [hfull]
        exact hperm.mem_iff
      have hP : 4/5 ≤ i.cwvRatio ∨
          ∃ x ∈ ((sortedCandidates i).map Prod.snd).take 3,
            bucketCat x = some RiskCat.cwv := by
        rcases le_or_lt (4/5 : ℚ) i.cwvRatio with h | h
        · exact Or.inl h
        · obtain ⟨p, hp, hc⟩ := exists_cwv_mem_candidates i h
          exact Or.inr ⟨p.2, (hmem_iff p.2).mpr (List.mem_map_of_mem _ hp), hc⟩
      have hQ : 3/4 ≤ i.onpageRatio ∨
          ∃ x ∈ ((sortedCandidates i).map Prod.snd).take 3,
            bucketCat x = some RiskCat.onpage := by
        rcases le_or_lt (3/4 : ℚ) i.onpageRatio with h | h
        · exact Or.inl h
        · obtain ⟨p, hp, hc⟩ := exists_onpage_mem_candidates i h
          exact Or.inr ⟨p.2, (hmem_iff p.2).mpr (List.mem_map_of_mem _ hp), hc⟩
      have hle : (((sortedCandidates i).map Prod.snd).take 3).length ≤ 3 := by
        rw [List.length_take]
        omega
      have h3 : 3 ≤ (((sortedCandidates i).map Prod.snd).take 3).length + 3 := by
        omega
      rw [List.length_take, backfillLoop_length i hdOP 3 _ hP hQ h3 hle]
      omega
  · rw [sortedCandidates]
    haveI hTot : IsTotal (ℚ × RiskMsg) (fun p q => p.1 ≤ q.1) :=
      ⟨fun a b => le_total a.1 b.1⟩
    haveI hTrans : IsTrans (ℚ × RiskMsg) (fun p q => p.1 ≤ q.1) :=
      ⟨fun a b c hab hbc => le_trans hab hbc⟩
    exact List.sorted_insertionSort _ _
  · have hsorted : (sortedCandidates i).Pairwise
        (fun p q => distinctBuckets p.2 q.2) := by
      have hsymm : ∀ {a b : ℚ × RiskMsg},
          distinctBuckets a.2 b.2 → distinctBuckets b.2 a.2 :=
        fun h => distinctBuckets_symm h
      rw [sortedCandidates]
      exact ((List.perm_insertionSort _ _).pairwise_iff
        (fun h => hsymm h)).mpr (riskCandidates_pairwise i)
    have hmap : ((sortedCandidates i).map Prod.snd).Pairwise distinctBuckets :=
      List.pairwise_map.mpr hsorted
    have hrs0 : (((sortedCandidates i).map Prod.snd).take 3).Pairwise
        distinctBuckets := hmap.sublist (List.take_sublist _ _)
    have hInv : RiskMsg.onpageCatastrophe ∈
        ((sortedCandidates i).map Prod.snd).take 3 → i.onpageRatio < 1/2 := by
      intro hmem
      have h1 : RiskMsg.onpageCatastrophe ∈ (sortedCandidates i).map Prod.snd :=
        (List.take_sublist _ _).subset hmem
      have h2 : RiskMsg.onpageCatastrophe ∈ (riskCandidates i).map Prod.snd :=
        hperm.mem_iff.mp h1
      obtain ⟨p, hp, hpe⟩ := List.mem_map.mp h2
      exact onpageCatastrophe_src i p hp hpe
    rw [identifyTopRisks]
    exact (backfillLoop_pairwise i 3 _ hrs0 hInv).sublist (List.take_sublist _ _)

/-- Helper: the one-step unfolding of the backfill loop at positive fuel. -/
theorem backfillLoop_succ (i : RiskInput) (fuel : ℕ) (risks : List RiskMsg) :
    backfillLoop i (fuel + 1) risks =
      if risks.length < 3 then
        if 4/5 ≤ i.cwvRatio ∧ risks.countP containsWebVitals = 0 then
          backfillLoop i fuel (risks ++ [.backfillMonitoring])
        else if 3/4 ≤ i.onpageRatio ∧
            risks.countP (renderedContainsOnPage i) = 0 then
          backfillLoop i fuel (risks ++ [.backfillOptimization])
        else risks ++ [.backfillContinuous]
      else risks := rfl

/-- C9 counterexample: on `onpageDomainInput` (no genuine risks, domain
`on-page.com`) the code returns only TWO risk statements: the first backfill
iteration appends the monitoring message, whose rendered text contains the
domain and hence the substring "on-page"; the second iteration then fails
both guards and takes the append-and-break branch, stopping at two entries —
refuting the claim that the list is always backfilled to 3. -/
theorem identifyTopRisks_onpage_domain_two_risks :
    riskCandidates onpageDomainInput = [] ∧
    identifyTopRisks onpageDomainInput =
      [RiskMsg.backfillMonitoring, RiskMsg.backfillContinuous] ∧
    ¬ (identifyTopRisks onpageDomainInput).length = 3 := by
  have hc : riskCandidates onpageDomainInput = [] := by
    rw [riskCandidates, cwvCandidate, onpageCandidate, authorityCandidate,
      serpCandidate, gapCandidate]
    norm_num [onpageDomainInput, RiskInput.cwvRatio, RiskInput.onpageRatio,
      RiskInput.authorityRatio, RiskInput.serpRatio]
  have hb1 : backfillLoop onpageDomainInput 3 [] =
      backfillLoop onpageDomainInput 2 [RiskMsg.backfillMonitoring] := by
    rw [show (3 : ℕ) = 2 + 1 from rfl, backfillLoop_succ]
    rw [if_pos (by decide)]
    rw [if_pos ⟨by norm_num [onpageDomainInput, RiskInput.cwvRatio], rfl⟩]
    rfl
  have hb2 : backfillLoop onpageDomainInput 2 [RiskMsg.backfillMonitoring] =
      [RiskMsg.backfillMonitoring, RiskMsg.backfillContinuous] := by
    rw [show (2 : ℕ) = 1 + 1 from rfl, backfillLoop_succ]
    rw [if_pos (by decide)]
    rw [if_neg (fun h => absurd h.2 (by decide))]
    rw [if_neg (fun h => absurd h.2 (by decide))]
    rfl
  have hrun : identifyTopRisks onpageDomainInput =
      [RiskMsg.backfillMonitoring, RiskMsg.backfillContinuous] := by
    rw [identifyTopRisks, sortedCandidates, hc]
    show (backfillLoop onpageDomainInput 3 ([] : List RiskMsg)).take 3 =
      [RiskMsg.backfillMonitoring, RiskMsg.backfillContinuous]
    rw [hb1, hb2]
    rfl
  refine ⟨hc, hrun, ?_⟩
  rw [hrun]
  decide

/-- C9 witness: the clean-domain backfill clause applied at a concrete input
whose `domainHasOnPage` bit is false. -/
theorem identifyTopRisks_bounded_witness :
    (identifyTopRisks ⟨16, 12, 8, 4, 32, 33, false⟩).length = 3 :=
  (identifyTopRisks_bounded_sorted_distinct ⟨16, 12, 8, 4, 32, 33, false⟩).2.1 rfl

end FourSight
